import Mathlib

/-!
Shallow embedding of `src/webinarjam_auto_register.py`, a FastAPI service
with a single endpoint `POST /register` handled by `register_contact`.

The handler splits the contact name, builds a form payload, performs one
outbound POST to the WebinarJam API, sleeps 2 seconds, logs the raw body,
and maps the remote result onto a local outcome.  The remote world
(response or transport failure) is an explicit input `RemoteResult`;
side effects (the outbound POST, sleeps, the debug log line) are recorded
in an explicit effect trace.
-/

/-- Process-wide configuration read from the environment at startup
(`WEBINARJAM_API_KEY`, `WEBINARJAM_WEBINAR_ID`,
`WEBINARJAM_WEBINAR_SCHEDULE_ID`, lines 12-14 of the source). -/
structure Config where
  api_key : String
  webinar_id : String
  schedule_id : String
deriving DecidableEq

/-- The pydantic `Contact` model (source lines 25-28): `name : str`,
`email : EmailStr`, `phone : str`.  A value of this type is a contact that
already passed pydantic validation. -/
structure Contact where
  name : String
  email : String
  phone : String
deriving DecidableEq

/-- A raw inbound request body before pydantic validation: each field may
be missing. -/
structure RawRequest where
  name : Option String
  email : Option String
  phone : Option String
deriving DecidableEq

/-- Splits a character list at every character satisfying `p`, keeping
empty chunks (the semantics of splitting on single separator
occurrences). -/
def splitOnPred (p : Char → Bool) : List Char → List (List Char)
  | [] => [[]]
  | c :: rest =>
    if p c then [] :: splitOnPred p rest
    else
      match splitOnPred p rest with
      | [] => [[c]]
      | w :: ws => (c :: w) :: ws

/-- Python `str.split()` with no separator (source line 36): split on runs
of whitespace and drop empty tokens, so leading, trailing and repeated
whitespace never yield empty tokens. -/
def pySplit (s : String) : List String :=
  ((splitOnPred Char.isWhitespace s.data).filter (fun w => !w.isEmpty)).map
    (fun w => String.mk w)

/-- Python `" ".join(parts)` (source line 38). -/
def joinSpace : List String → String
  | [] => ""
  | [w] => w
  | w :: ws => w ++ " " ++ joinSpace ws

/-- Modelled from the spec: `email` must satisfy standard email-address
syntax.  The source delegates this to the third-party pydantic `EmailStr`
validator, whose code is not part of this repository; the model is a
simplified syntactic check (exactly one at sign, non-empty local part,
a domain containing a dot, no whitespace). -/
def isValidEmail (s : String) : Bool :=
  match splitOnPred (fun c => c == '@') s.data with
  | [loc, dom] =>
    !loc.isEmpty && !dom.isEmpty && dom.contains '.' &&
      !(s.data.any Char.isWhitespace)
  | _ => false

/-- FastAPI/pydantic input validation for the `Contact` model: all three
fields required, `email` syntactically valid.  On violation the framework
rejects the request with a 422 validation error and never calls the
handler. -/
def parseContact (r : RawRequest) : Except String Contact :=
  match r.name, r.email, r.phone with
  | some n, some e, some p =>
    if isValidEmail e then Except.ok { name := n, email := e, phone := p }
    else Except.error "value is not a valid email address"
  | _, _, _ => Except.error "field required"

/-- `invalidInput r` holds when the raw request is missing a field or its
email is not syntactically valid. -/
def invalidInput (r : RawRequest) : Bool :=
  r.name.isNone || r.phone.isNone ||
    (match r.email with
     | none => true
     | some e => !isValidEmail e)

/-- The form-encoded body sent to the WebinarJam API (source lines
41-49). -/
structure Payload where
  api_key : String
  webinar_id : String
  schedule : String
  first_name : String
  last_name : String
  email : String
  phone : String
deriving DecidableEq

/-- The fields of the remote JSON body that the handler reads from the
nested `user` object (source lines 81-84), each possibly absent. -/
structure UserObj where
  user_id : Option String
  live_room_url : Option String
  replay_room_url : Option String
  thank_you_url : Option String
deriving DecidableEq

/-- The `user` default `{}` used by `response_json.get("user", {})`
(source line 78): a dictionary with every key missing. -/
def emptyUser : UserObj :=
  { user_id := none, live_room_url := none, replay_room_url := none,
    thank_you_url := none }

/-- The fields of a parsed remote JSON body that the handler reads:
`status`, `error` and the nested `user` object, each possibly absent. -/
structure JsonBody where
  status : Option String
  error : Option String
  user : Option UserObj
deriving DecidableEq

/-- A `requests` response: HTTP status code, raw body text, and the result
of attempting to parse the body as JSON (`none` models the `ValueError`
raised by `response.json()` at source line 69). -/
structure HttpResponse where
  status_code : Nat
  text : String
  json : Option JsonBody
deriving DecidableEq

/-- The remote world's answer to the single outbound POST: either a
response, or a transport-level failure (`requests.exceptions.
RequestException`: connection error, DNS failure, timeout) carrying the
exception text `str(e)`. -/
inductive RemoteResult where
  | response (r : HttpResponse)
  | transportError (msg : String)
deriving DecidableEq

/-- Side effects of one request, in order of occurrence.  `sleepBlocking`
records a thread-blocking `time.sleep`; the constructor `sleepAsync`
records a cooperative event-loop wait (`asyncio.sleep`) — the vocabulary
distinguishes the two so that theorems can say which kind the code
performs. -/
inductive Effect where
  | post (payload : Payload)
  | sleepBlocking (seconds : Nat)
  | sleepAsync (seconds : Nat)
  | log (text : String)
deriving DecidableEq

/-- The outcome of one request as seen by the caller. -/
inductive Result where
  | success (message : String) (user_id : Option String)
      (live_room_url : Option String) (replay_room_url : Option String)
      (thank_you_url : Option String)
  | failure (status_code : Nat) (detail : String)
  | validationError (status_code : Nat) (detail : String)
  | uncaught (err : String)
deriving DecidableEq

def Result.isSuccess : Result → Bool
  | .success _ _ _ _ _ => true
  | _ => false

def Result.isFailure : Result → Bool
  | .failure _ _ => true
  | _ => false

/-- Response mapping (source lines 67-96): 200 with unparseable body →
500; 200 with body status `"success"` → success record built from the
nested `user` object; 200 otherwise → 400 embedding the body's `error`
field or `"Unknown error"`; non-200 → failure with the remote status code
embedding the raw body text. -/
def mapResponse (r : HttpResponse) : Result :=
  if r.status_code = 200 then
    match r.json with
    | none =>
      Result.failure 500
        ("WebinarJam API returned an invalid response: " ++ r.text)
    | some j =>
      if j.status = some "success" then
        let user := j.user.getD emptyUser
        Result.success "Contact successfully registered for the webinar."
          user.user_id user.live_room_url user.replay_room_url
          user.thank_you_url
      else
        Result.failure 400
          ("Failed to register contact. WebinarJam API responded with: " ++
            j.error.getD "Unknown error")
  else
    Result.failure r.status_code
      ("Failed to register contact. WebinarJam API responded with: " ++
        r.text)

/-- The try/except block (source lines 56-102): attempt the POST; if it
raises a transport error, map to a 500 failure — the `time.sleep(2)` at
line 61 is then never reached.  If a response arrives, sleep 2 seconds,
log the raw body, and map the response. -/
def callAndMap (payload : Payload) (remote : RemoteResult) :
    Result × List Effect :=
  match remote with
  | .transportError msg =>
    (Result.failure 500
      ("An error occurred while communicating with the WebinarJam API: " ++
        msg),
     [Effect.post payload])
  | .response r =>
    (mapResponse r,
     [Effect.post payload, Effect.sleepBlocking 2,
      Effect.log ("Raw response text: " ++ r.text)])

/-- The handler `register_contact` (source lines 31-102), applied to a
contact that passed validation.  `name_parts[0]` on an empty token list
raises an uncaught `IndexError` (modelled by `Result.uncaught`) before any
outbound call. -/
def register_contact (cfg : Config) (contact : Contact)
    (remote : RemoteResult) : Result × List Effect :=
  match pySplit contact.name with
  | [] => (Result.uncaught "IndexError: list index out of range", [])
  | first_name :: rest =>
    -- name_parts = first_name :: rest, so name_parts[1:] is rest and
    -- len(name_parts) > 1 iff rest is non-empty
    let last_name := if rest.length > 0 then joinSpace rest else ""
    let payload : Payload :=
      { api_key := cfg.api_key, webinar_id := cfg.webinar_id,
        schedule := cfg.schedule_id, first_name := first_name,
        last_name := last_name, email := contact.email,
        phone := contact.phone }
    callAndMap payload remote

/-- The full inbound path: pydantic validation (422 on violation, handler
never invoked, no effects) then the handler. -/
def handle (cfg : Config) (raw : RawRequest) (remote : RemoteResult) :
    Result × List Effect :=
  match parseContact raw with
  | .error e => (Result.validationError 422 e, [])
  | .ok contact => register_contact cfg contact remote

/-- Number of outbound POST attempts recorded in a trace. -/
def countPosts : List Effect → Nat
  | [] => 0
  | .post _ :: rest => countPosts rest + 1
  | _ :: rest => countPosts rest

/-- Total seconds of delay (of either kind) recorded in a trace. -/
def sleptSeconds : List Effect → Nat
  | [] => 0
  | .sleepBlocking n :: rest => n + sleptSeconds rest
  | .sleepAsync n :: rest => n + sleptSeconds rest
  | _ :: rest => sleptSeconds rest

/-- Number of cooperative (event-loop friendly) waits recorded in a
trace. -/
def countAsyncSleeps : List Effect → Nat
  | [] => 0
  | .sleepAsync _ :: rest => countAsyncSleeps rest + 1
  | _ :: rest => countAsyncSleeps rest

/-- The payload of the first outbound POST in a trace, if any. -/
def sentPayload : List Effect → Option Payload
  | [] => none
  | .post p :: _ => some p
  | _ :: rest => sentPayload rest

/-- A fixed configuration used for concrete evaluations. -/
def cfg0 : Config :=
  { api_key := "key", webinar_id := "wid", schedule_id := "sid" }

/-- A typical valid contact. -/
def janeContact : Contact :=
  { name := "Jane Doe", email := "jane@example.com", phone := "+46700000000" }

/-- The success body from the spec's example: status success and a `user`
object carrying all four fields. -/
def okJson : JsonBody :=
  { status := some "success", error := none,
    user := some { user_id := some "u1", live_room_url := some "http://x",
                   replay_room_url := some "http://y",
                   thank_you_url := some "http://z" } }

/-- A 200 response carrying `okJson`. -/
def okResponse : HttpResponse :=
  { status_code := 200, text := "ok-body", json := some okJson }

/-- The business-failure body from the spec's example. -/
def failedJson : JsonBody :=
  { status := some "failed", error := some "Webinar full", user := none }

/-- A 200 response carrying `failedJson`. -/
def failedResponse : HttpResponse :=
  { status_code := 200, text := "failed-body", json := some failedJson }

/-- The 503 response from the spec's example. -/
def resp503 : HttpResponse :=
  { status_code := 503, text := "Service Unavailable", json := none }

example : pySplit "Jane Doe" = ["Jane", "Doe"] := by decide
example : pySplit "  Mary  Jane   Watson " = ["Mary", "Jane", "Watson"] := by decide
example : pySplit "   " = [] := by decide
example : isValidEmail "a@b.com" = true := by decide
example : isValidEmail "not-an-email" = false := by decide
example : joinSpace ["Jane", "Watson"] = "Jane Watson" := by decide

/-- Every mapped response is exactly one of success or failure. -/
theorem mapResponse_success_xor_failure (r : HttpResponse) :
    ((mapResponse r).isSuccess ^^ (mapResponse r).isFailure) = true := by
  obtain ⟨code, text, json⟩ := r
  unfold mapResponse
  dsimp only
  split
  · cases json with
    | none => rfl
    | some j =>
      by_cases hs : j.status = some "success" <;>
        simp [hs, Result.isSuccess, Result.isFailure]
  · rfl

/-- Claim C1, as stated, fails on the code: the contact with the non-empty
name made of a single space, a syntactically valid email and a phone
passes validation, yet `register_contact` yields neither a success record
nor a failure record — an uncaught IndexError escapes. -/
theorem register_contact_whitespace_name_escapes :
    (Contact.mk " " "jane@example.com" "1").name ≠ "" ∧
    isValidEmail (Contact.mk " " "jane@example.com" "1").email = true ∧
    ((register_contact cfg0 (Contact.mk " " "jane@example.com" "1")
        (RemoteResult.response okResponse)).1.isSuccess ^^
      (register_contact cfg0 (Contact.mk " " "jane@example.com" "1")
        (RemoteResult.response okResponse)).1.isFailure) = false := by
  refine ⟨?_, ?_, ?_⟩ <;> decide

/-- Claim C1 (amended): for every contact whose name contains at least one
whitespace-separated token, `register_contact` yields exactly one outcome
— success xor failure, never both, never neither — and no unhandled
exception escapes to the caller. -/
theorem register_contact_exactly_one_outcome (cfg : Config)
    (contact : Contact) (remote : RemoteResult)
    (h : pySplit contact.name ≠ []) :
    ((register_contact cfg contact remote).1.isSuccess ^^
      (register_contact cfg contact remote).1.isFailure) = true := by
  cases hp : pySplit contact.name with
  | nil => exact absurd hp h
  | cons first rest =>
    unfold register_contact
    rw [hp]
    cases remote with
    | transportError msg => rfl
    | response r => exact mapResponse_success_xor_failure r

/-- Claim C1 witness: the amended theorem applied to a concrete contact. -/
theorem register_contact_exactly_one_outcome_witness :
    pySplit janeContact.name ≠ [] ∧
    ((register_contact cfg0 janeContact
        (RemoteResult.response okResponse)).1.isSuccess ^^
      (register_contact cfg0 janeContact
        (RemoteResult.response okResponse)).1.isFailure) = true :=
  ⟨by decide,
   register_contact_exactly_one_outcome cfg0 janeContact
     (RemoteResult.response okResponse) (by decide)⟩

/-- Claim C2, as stated, fails on the code: a request that passes input
validation and ends in a transport failure sleeps for 0 seconds, not 2 —
the `time.sleep(2)` at line 61 sits after `requests.post` inside the try
block, so a transport exception skips it. -/
theorem transport_failure_skips_delay :
    invalidInput
        (RawRequest.mk (some "Jane Doe") (some "jane@example.com")
          (some "1")) = false ∧
    sleptSeconds
        (handle cfg0
          (RawRequest.mk (some "Jane Doe") (some "jane@example.com")
            (some "1"))
          (RemoteResult.transportError "Connection timed out")).2 = 0 := by
  refine ⟨?_, ?_⟩ <;> decide

/-- Claim C2 (amended): when the remote call returns a response (of any
status), `register_contact` sleeps exactly 2 seconds before returning;
when the call fails at the transport level, no delay occurs at all. -/
theorem post_call_delay_two_seconds (cfg : Config) (contact : Contact)
    (r : HttpResponse) (msg : String) (h : pySplit contact.name ≠ []) :
    sleptSeconds
        (register_contact cfg contact (RemoteResult.response r)).2 = 2 ∧
    sleptSeconds
        (register_contact cfg contact
          (RemoteResult.transportError msg)).2 = 0 := by
  cases hp : pySplit contact.name with
  | nil => exact absurd hp h
  | cons first rest =>
    unfold register_contact
    rw [hp]
    exact ⟨rfl, rfl⟩

/-- Claim C2 witness: the amended theorem applied to a concrete contact,
response and transport error. -/
theorem post_call_delay_two_seconds_witness :
    pySplit janeContact.name ≠ [] ∧
    (sleptSeconds
        (register_contact cfg0 janeContact
          (RemoteResult.response okResponse)).2 = 2 ∧
      sleptSeconds
        (register_contact cfg0 janeContact
          (RemoteResult.transportError "Connection timed out")).2 = 0) :=
  ⟨by decide,
   post_call_delay_two_seconds cfg0 janeContact okResponse
     "Connection timed out" (by decide)⟩

/-- Claim C3: a request missing name, email or phone, or whose email is
not syntactically valid, is rejected with a 422 validation error and no
outbound POST is attempted. -/
theorem validation_rejects_before_remote_call (cfg : Config)
    (raw : RawRequest) (remote : RemoteResult)
    (h : invalidInput raw = true) :
    (∃ d, (handle cfg raw remote).1 = Result.validationError 422 d) ∧
    countPosts (handle cfg raw remote).2 = 0 := by
  obtain ⟨n, e, p⟩ := raw
  cases n <;> cases e <;> cases p <;>
    simp_all [invalidInput, handle, parseContact, countPosts]

/-- Claim C3 witness: the spec's example email is rejected before any
outbound call. -/
theorem validation_rejects_before_remote_call_witness :
    invalidInput
        (RawRequest.mk (some "Jane Doe") (some "not-an-email")
          (some "1")) = true ∧
    ((∃ d,
        (handle cfg0
          (RawRequest.mk (some "Jane Doe") (some "not-an-email") (some "1"))
          (RemoteResult.response okResponse)).1 =
          Result.validationError 422 d) ∧
      countPosts
        (handle cfg0
          (RawRequest.mk (some "Jane Doe") (some "not-an-email") (some "1"))
          (RemoteResult.response okResponse)).2 = 0) :=
  ⟨by decide,
   validation_rejects_before_remote_call cfg0
     (RawRequest.mk (some "Jane Doe") (some "not-an-email") (some "1"))
     (RemoteResult.response okResponse) (by decide)⟩

/-- Claim C4: the name is split on whitespace; the first token becomes the
payload's `first_name` and the remaining tokens rejoined with single
spaces become `last_name` (the empty string when there is only one
token). -/
theorem name_splitting_payload (cfg : Config) (contact : Contact)
    (remote : RemoteResult) (first : String) (rest : List String)
    (h : pySplit contact.name = first :: rest) :
    sentPayload (register_contact cfg contact remote).2 =
      some
        { api_key := cfg.api_key, webinar_id := cfg.webinar_id,
          schedule := cfg.schedule_id, first_name := first,
          last_name := joinSpace rest, email := contact.email,
          phone := contact.phone } := by
  unfold register_contact
  rw [h]
  have hlast : (if rest.length > 0 then joinSpace rest else "") =
      joinSpace rest := by
    cases rest <;> simp [joinSpace]
  cases remote with
  | transportError msg => simp [callAndMap, sentPayload, hlast]
  | response r => simp [callAndMap, sentPayload, hlast]

/-- Claim C4 witness: the spec's three-token example sends first name
`Mary` and last name `Jane Watson`. -/
theorem name_splitting_payload_witness :
    pySplit "Mary Jane Watson" = ["Mary", "Jane", "Watson"] ∧
    sentPayload
        (register_contact cfg0
          (Contact.mk "Mary Jane Watson" "mary@example.com" "1")
          (RemoteResult.response okResponse)).2 =
      some
        { api_key := "key", webinar_id := "wid", schedule := "sid",
          first_name := "Mary", last_name := "Jane Watson",
          email := "mary@example.com", phone := "1" } :=
  ⟨by decide,
   name_splitting_payload cfg0
     (Contact.mk "Mary Jane Watson" "mary@example.com" "1")
     (RemoteResult.response okResponse) "Mary" ["Jane", "Watson"]
     (by decide)⟩

/-- Claim C5: a 200 response whose parsed body has status `"success"`
maps to a success outcome carrying the fixed message and the four fields
of the body's nested `user` object, each absent when missing from that
object. -/
theorem success_response_mapping (cfg : Config) (contact : Contact)
    (r : HttpResponse) (j : JsonBody) (hname : pySplit contact.name ≠ [])
    (hcode : r.status_code = 200) (hjson : r.json = some j)
    (hstatus : j.status = some "success") :
    (register_contact cfg contact (RemoteResult.response r)).1 =
      Result.success "Contact successfully registered for the webinar."
        (j.user.getD emptyUser).user_id
        (j.user.getD emptyUser).live_room_url
        (j.user.getD emptyUser).replay_room_url
        (j.user.getD emptyUser).thank_you_url := by
  cases hp : pySplit contact.name with
  | nil => exact absurd hp hname
  | cons first rest =>
    unfold register_contact
    rw [hp]
    show mapResponse r = _
    unfold mapResponse
    rw [hjson]
    simp [hcode, hstatus]

/-- Claim C5 witness: the spec's example success body yields a success
outcome carrying all four user fields. -/
theorem success_response_mapping_witness :
    (pySplit janeContact.name ≠ [] ∧ okResponse.status_code = 200 ∧
      okResponse.json = some okJson ∧ okJson.status = some "success") ∧
    (register_contact cfg0 janeContact
        (RemoteResult.response okResponse)).1 =
      Result.success "Contact successfully registered for the webinar."
        (some "u1") (some "http://x") (some "http://y") (some "http://z") :=
  ⟨⟨by decide, by decide, by decide, by decide⟩,
   success_response_mapping cfg0 janeContact okResponse okJson (by decide)
     (by decide) (by decide) (by decide)⟩

/-- Claim C6: a 200 response whose parsed body has a status other than
`"success"` maps to a 400 failure whose message embeds the body's `error`
field, or the literal `"Unknown error"` when that field is absent. -/
theorem business_error_mapping (cfg : Config) (contact : Contact)
    (r : HttpResponse) (j : JsonBody) (hname : pySplit contact.name ≠ [])
    (hcode : r.status_code = 200) (hjson : r.json = some j)
    (hstatus : j.status ≠ some "success") :
    (register_contact cfg contact (RemoteResult.response r)).1 =
      Result.failure 400
        ("Failed to register contact. WebinarJam API responded with: " ++
          j.error.getD "Unknown error") := by
  cases hp : pySplit contact.name with
  | nil => exact absurd hp hname
  | cons first rest =>
    unfold register_contact
    rw [hp]
    show mapResponse r = _
    unfold mapResponse
    rw [hjson]
    simp [hcode, hstatus]

/-- Claim C6 witness: the spec's example failed body yields a 400 failure
whose detail embeds `Webinar full`. -/
theorem business_error_mapping_witness :
    (pySplit janeContact.name ≠ [] ∧ failedResponse.status_code = 200 ∧
      failedResponse.json = some failedJson ∧
      failedJson.status ≠ some "success") ∧
    (register_contact cfg0 janeContact
        (RemoteResult.response failedResponse)).1 =
      Result.failure 400
        "Failed to register contact. WebinarJam API responded with: Webinar full" :=
  ⟨⟨by decide, by decide, by decide, by decide⟩,
   business_error_mapping cfg0 janeContact failedResponse failedJson
     (by decide) (by decide) (by decide) (by decide)⟩

/-- Claim C7: a response with an HTTP status other than 200 maps to a
failure whose status code equals the remote status code and whose message
embeds the raw response body text. -/
theorem http_error_mapping (cfg : Config) (contact : Contact)
    (r : HttpResponse) (hname : pySplit contact.name ≠ [])
    (hcode : r.status_code ≠ 200) :
    (register_contact cfg contact (RemoteResult.response r)).1 =
      Result.failure r.status_code
        ("Failed to register contact. WebinarJam API responded with: " ++
          r.text) := by
  cases hp : pySplit contact.name with
  | nil => exact absurd hp hname
  | cons first rest =>
    unfold register_contact
    rw [hp]
    show mapResponse r = _
    unfold mapResponse
    simp [hcode]

/-- Claim C7 witness: the spec's 503 example yields a 503 failure
embedding the raw body text. -/
theorem http_error_mapping_witness :
    (pySplit janeContact.name ≠ [] ∧ resp503.status_code ≠ 200) ∧
    (register_contact cfg0 janeContact (RemoteResult.response resp503)).1 =
      Result.failure 503
        "Failed to register contact. WebinarJam API responded with: Service Unavailable" :=
  ⟨⟨by decide, by decide⟩,
   http_error_mapping cfg0 janeContact resp503 (by decide) (by decide)⟩

/-- Claim C8: a transport-level failure of the outbound call maps to a
500 failure whose message embeds the text of the underlying transport
error. -/
theorem transport_error_mapping (cfg : Config) (contact : Contact)
    (msg : String) (hname : pySplit contact.name ≠ []) :
    (register_contact cfg contact (RemoteResult.transportError msg)).1 =
      Result.failure 500
        ("An error occurred while communicating with the WebinarJam API: " ++
          msg) := by
  cases hp : pySplit contact.name with
  | nil => exact absurd hp hname
  | cons first rest =>
    unfold register_contact
    rw [hp]
    rfl

/-- Claim C8 witness: a concrete timeout maps to a 500 failure embedding
the transport error text. -/
theorem transport_error_mapping_witness :
    pySplit janeContact.name ≠ [] ∧
    (register_contact cfg0 janeContact
        (RemoteResult.transportError "Connection to api timed out")).1 =
      Result.failure 500
        "An error occurred while communicating with the WebinarJam API: Connection to api timed out" :=
  ⟨by decide,
   transport_error_mapping cfg0 janeContact "Connection to api timed out"
     (by decide)⟩

/-- Claim C9: the code's 2-second delay is a thread-blocking `time.sleep`
inside an `async def` handler — the trace records a blocking sleep and no
cooperative (event-loop friendly) wait, so the delay stalls the event loop
rather than only the one request. -/
theorem delay_is_blocking_sleep :
    Effect.sleepBlocking 2 ∈
      (register_contact cfg0 janeContact
        (RemoteResult.response okResponse)).2 ∧
    countAsyncSleeps
        (register_contact cfg0 janeContact
          (RemoteResult.response okResponse)).2 = 0 := by
  refine ⟨?_, ?_⟩ <;> decide

/-- Claim C10: a contact whose name has no whitespace-separated tokens but
whose email is syntactically valid passes model validation, and the
handler escapes with an uncaught IndexError before any outbound call —
neither a success record, nor a failure record, nor a 422 validation
error. -/
theorem tokenless_name_uncaught_index_error (cfg : Config)
    (remote : RemoteResult) (name email phone : String)
    (hemail : isValidEmail email = true) (hname : pySplit name = []) :
    handle cfg (RawRequest.mk (some name) (some email) (some phone))
        remote =
      (Result.uncaught "IndexError: list index out of range", []) := by
  simp [handle, parseContact, hemail, register_contact, hname]

/-- Claim C10 witness: a whitespace-only name with a valid email escapes
with an uncaught IndexError and an empty effect trace. -/
theorem tokenless_name_uncaught_index_error_witness :
    (isValidEmail "jane@example.com" = true ∧ pySplit "   " = []) ∧
    handle cfg0
        (RawRequest.mk (some "   ") (some "jane@example.com") (some "1"))
        (RemoteResult.response okResponse) =
      (Result.uncaught "IndexError: list index out of range", []) :=
  ⟨⟨by decide, by decide⟩,
   tokenless_name_uncaught_index_error cfg0
     (RemoteResult.response okResponse) "   " "jane@example.com" "1"
     (by decide) (by decide)⟩
